import Mathlib

/-!
Shallow embedding of `src/packages/react/src/ReactContext.js`: the context
cell, the `contextDidUpdate` commit step, the `setContext` publisher with its
reference-counted completion callback, and `createContext`.

The JavaScript code is single-threaded with reentrant callbacks.  We model the
synchronous part of `setContext` as a pure function from the pre-call state to
an outcome record (new context state, synchronous user-callback invocations,
the wrapped callback handed to the roots, and the list of dispatches), and we
model the later invocations of the wrapped callback — which each root performs
once it finishes its own propagation — as explicit state-transition functions
iterated over a barrier state.  Roots are opaque handles (a type parameter);
the global root list `ReactRootList.first` is passed in as a `List`.
-/

namespace ReactContextModel

/-- JavaScript value supplied as the optional `calculateChangedBits` argument
of `createContext`, and stored in the context's `_calculateChangedBits`
field: `undefined`, `null`, a function of two values returning a number, or
any other (non-callable, non-null) value. -/
inductive ChangedBits (T : Type) where
  | undefined
  | null
  | fn (f : T → T → Int)
  | other

/-- The context object: the fields of the record built by `createContext`
that the core algorithm reads or writes (`$$typeof`, `Provider`, `Consumer`
and the dev-only renderer fields carry no behavior in this core). -/
structure ReactContext (T : Type) where
  _calculateChangedBits : ChangedBits T
  _globalValue : T
  _currentValue : T
  _currentValue2 : T

/-- Commit step, lines 19–21 of `ReactContext.js`:
`context._currentValue = context._currentValue2 = newValue`. -/
def contextDidUpdate {T : Type} (context : ReactContext T) (newValue : T) :
    ReactContext T :=
  { context with _currentValue := newValue, _currentValue2 := newValue }

/-- The `do … while (root !== null)` counting loop of lines 40–43, walking
`nextGlobalRoot` links; on a list this is structural recursion. -/
def countLoop {R : Type} : List R → Nat
  | [] => 0
  | _ :: rest => countLoop rest + 1

/-- The callback handed to every root in the dispatch loop: either the
reference-counting closure of lines 44–50 (created when a user callback was
supplied), which captures `newValue` and its own mutable
`numRootsThatNeedUpdate` counter, or `contextDidUpdate.bind(null, context,
newValue)` of line 59 (no user callback), which captures only `newValue`. -/
inductive Wrapped (T : Type) where
  | refCount (newValue : T) (numRootsThatNeedUpdate : Int)
  | commit (newValue : T)

/-- Observable outcome of the synchronous part of one `setContext` call:
the context state when the call returns, the arguments of the synchronous
invocations of the user callback (`Option.none` records a JavaScript call
with no argument, i.e. `undefined`), the wrapped callback that was handed to
the roots (if any), and the dispatches `root.setContext(context, oldValue,
newValue, wrappedCallback)` issued by the loop of lines 69–74, recorded as
`(root, oldValue, newValue)` triples. -/
structure SetContextOutcome (T R : Type) where
  context : ReactContext T
  syncUserCbCalls : List (Option T)
  wrappedCallback : Option (Wrapped T)
  dispatches : List (R × T × T)

/-- Synchronous part of `setContext`, lines 23–75 of `ReactContext.js`.
`first` is `ReactRootList.first` (the global root list), `userCallback`
records whether the optional callback argument was neither `null` nor
`undefined`. -/
def setContext {T R : Type} (first : List R) (context : ReactContext T)
    (newValue : T) (userCallback : Bool) : SetContextOutcome T R :=
  let oldValue := context._globalValue
  let context := { context with _globalValue := newValue }
  if userCallback then
    match first with
    | [] =>
        -- There are no mounted roots. Fire the callback and exit.
        { context := contextDidUpdate context newValue
          syncUserCbCalls := [Option.none]
          wrappedCallback := Option.none
          dispatches := [] }
    | _ :: _ =>
        let numRootsThatNeedUpdate := countLoop first
        { context := context
          syncUserCbCalls := []
          wrappedCallback :=
            some (Wrapped.refCount newValue (numRootsThatNeedUpdate : Int))
          dispatches := first.map fun root => (root, oldValue, newValue) }
  else
    match first with
    | [] =>
        -- There are no mounted roots. Exit.
        { context := contextDidUpdate context newValue
          syncUserCbCalls := []
          wrappedCallback := Option.none
          dispatches := [] }
    | _ :: _ =>
        { context := context
          syncUserCbCalls := []
          wrappedCallback := some (Wrapped.commit newValue)
          dispatches := first.map fun root => (root, oldValue, newValue) }

/-- State of one reference-counting wrapped callback (the closure of lines
44–50) between invocations: the captured `newValue`, the mutable
`numRootsThatNeedUpdate` counter (a JavaScript number, so it can go
negative), the shared context cell, and the record of invocations of the
user callback `cb` performed so far (`Option.none` = called with no
argument). -/
structure BarrierState (T : Type) where
  newValue : T
  numRootsThatNeedUpdate : Int
  context : ReactContext T
  cbCalls : List (Option T)

/-- Barrier state at the moment the wrapped callback of lines 44–50 is
created: the counter holds the number of mounted roots, no user-callback
invocation has happened yet. -/
def initBarrier {T : Type} (newValue : T) (numRoots : Nat)
    (context : ReactContext T) : BarrierState T :=
  { newValue := newValue
    numRootsThatNeedUpdate := (numRoots : Int)
    context := context
    cbCalls := [] }

/-- One invocation of the reference-counting wrapped callback, lines 44–50:
decrement `numRootsThatNeedUpdate`; when it reaches exactly `0`, run
`contextDidUpdate(context, newValue)` and then `cb()` (with no argument). -/
def wrappedCallbackInvoke {T : Type} (s : BarrierState T) : BarrierState T :=
  let numRootsThatNeedUpdate := s.numRootsThatNeedUpdate - 1
  if numRootsThatNeedUpdate = 0 then
    { s with
      numRootsThatNeedUpdate := numRootsThatNeedUpdate
      context := contextDidUpdate s.context s.newValue
      cbCalls := s.cbCalls ++ [Option.none] }
  else
    { s with numRootsThatNeedUpdate := numRootsThatNeedUpdate }

/-- Outcome of one `createContext` call: the context record of lines
95–110 and the number of development-mode warnings reported
(`warningWithoutStack` fires when its first argument is falsy). -/
structure CreateOutcome (T : Type) where
  context : ReactContext T
  warnings : Nat

/-- The `calculateChangedBits === null || typeof calculateChangedBits ===
'function'` test of lines 86–87, as a Boolean on the modelled value. -/
def isNullOrFunction {T : Type} : ChangedBits T → Bool
  | ChangedBits.null => true
  | ChangedBits.fn _ => true
  | _ => false

/-- `createContext`, lines 77–190 of `ReactContext.js`, restricted to the
behavior of this core: normalize an `undefined` second argument to `null`;
otherwise, in dev mode, warn when it is neither `null` nor a function; then
build the context with `_calculateChangedBits` holding the (normalized)
argument as-is and all three value slots holding `defaultValue`. -/
def createContext {T : Type} (defaultValue : T)
    (calculateChangedBits : ChangedBits T) (dev : Bool) : CreateOutcome T :=
  match calculateChangedBits with
  | ChangedBits.undefined =>
      { context :=
          { _calculateChangedBits := ChangedBits.null
            _globalValue := defaultValue
            _currentValue := defaultValue
            _currentValue2 := defaultValue }
        warnings := 0 }
  | cb =>
      { context :=
          { _calculateChangedBits := cb
            _globalValue := defaultValue
            _currentValue := defaultValue
            _currentValue2 := defaultValue }
        warnings := if dev && !(isNullOrFunction cb) then 1 else 0 }

/-- Joint state of two overlapping publish calls on the same context: each
call's wrapped callback is its own closure with its own captured `newValue`
and its own `numRootsThatNeedUpdate` counter and user callback, while the
context cell is shared. -/
structure TwoPublishState (T : Type) where
  context : ReactContext T
  newValueA : T
  numRootsA : Int
  cbCallsA : List (Option T)
  newValueB : T
  numRootsB : Int
  cbCallsB : List (Option T)

/-- One invocation of publish A's wrapped callback (lines 44–50, for the
closure created by the first `setContext` call). -/
def doneA {T : Type} (s : TwoPublishState T) : TwoPublishState T :=
  let n := s.numRootsA - 1
  if n = 0 then
    { s with
      numRootsA := n
      context := contextDidUpdate s.context s.newValueA
      cbCallsA := s.cbCallsA ++ [Option.none] }
  else
    { s with numRootsA := n }

/-- One invocation of publish B's wrapped callback (lines 44–50, for the
closure created by the second `setContext` call). -/
def doneB {T : Type} (s : TwoPublishState T) : TwoPublishState T :=
  let n := s.numRootsB - 1
  if n = 0 then
    { s with
      numRootsB := n
      context := contextDidUpdate s.context s.newValueB
      cbCallsB := s.cbCallsB ++ [Option.none] }
  else
    { s with numRootsB := n }

/-- Run an interleaving of done calls of the two publishes: `true` is a
done call belonging to publish A, `false` one belonging to publish B. -/
def runTwo {T : Type} : List Bool → TwoPublishState T → TwoPublishState T
  | [], s => s
  | true :: rest, s => runTwo rest (doneA s)
  | false :: rest, s => runTwo rest (doneB s)

/-- Concrete context with default value `0` (the scenario of the spec),
as built by `createContext(0)`. -/
def ctxZero : ReactContext Int :=
  { _calculateChangedBits := ChangedBits.null
    _globalValue := 0
    _currentValue := 0
    _currentValue2 := 0 }

lemma countLoop_eq_length {R : Type} (l : List R) : countLoop l = l.length := by
  induction l with
  | nil => rfl
  | cons a rest ih => simp [countLoop, ih]

lemma contextDidUpdate_self {T : Type} (ctx : ReactContext T) (v : T) :
    contextDidUpdate (contextDidUpdate ctx v) v = contextDidUpdate ctx v := rfl

lemma iterate_commit {T : Type} (ctx : ReactContext T) (v : T) (k : Nat)
    (hk : 1 ≤ k) :
    (fun c => contextDidUpdate c v)^[k] ctx = contextDidUpdate ctx v := by
  obtain ⟨m, rfl⟩ : ∃ m, k = m + 1 := ⟨k - 1, by omega⟩
  clear hk
  induction m with
  | zero => rfl
  | succ m ih =>
      rw [Function.iterate_succ_apply', ih]
      exact contextDidUpdate_self ctx v

lemma wrappedCallbackInvoke_fire {T : Type} (s : BarrierState T)
    (h : s.numRootsThatNeedUpdate = 1) :
    wrappedCallbackInvoke s =
      { s with
        numRootsThatNeedUpdate := 0
        context := contextDidUpdate s.context s.newValue
        cbCalls := s.cbCalls ++ [Option.none] } := by
  unfold wrappedCallbackInvoke
  rw [h]
  norm_num

lemma wrappedCallbackInvoke_nofire {T : Type} (s : BarrierState T)
    (h : s.numRootsThatNeedUpdate ≠ 1) :
    wrappedCallbackInvoke s =
      { s with numRootsThatNeedUpdate := s.numRootsThatNeedUpdate - 1 } := by
  unfold wrappedCallbackInvoke
  rw [if_neg (by omega)]

lemma wrappedCallbackInvoke_newValue {T : Type} (s : BarrierState T) :
    (wrappedCallbackInvoke s).newValue = s.newValue := by
  unfold wrappedCallbackInvoke
  dsimp only
  split <;> rfl

lemma wrappedCallbackInvoke_num {T : Type} (s : BarrierState T) :
    (wrappedCallbackInvoke s).numRootsThatNeedUpdate
      = s.numRootsThatNeedUpdate - 1 := by
  unfold wrappedCallbackInvoke
  dsimp only
  split <;> rfl

lemma runBarrier_newValue {T : Type} (k : Nat) (s : BarrierState T) :
    (wrappedCallbackInvoke^[k] s).newValue = s.newValue := by
  induction k with
  | zero => rfl
  | succ k ih => rw [Function.iterate_succ_apply', wrappedCallbackInvoke_newValue, ih]

lemma runBarrier_num {T : Type} (k : Nat) (s : BarrierState T) :
    (wrappedCallbackInvoke^[k] s).numRootsThatNeedUpdate
      = s.numRootsThatNeedUpdate - (k : Int) := by
  induction k with
  | zero => simp
  | succ k ih =>
      rw [Function.iterate_succ_apply', wrappedCallbackInvoke_num, ih]
      push_cast
      ring

lemma runBarrier_spec {T : Type} (v : T) (ctx : ReactContext T) (n : Nat)
    (hn : 1 ≤ n) : ∀ k : Nat,
    (wrappedCallbackInvoke^[k] (initBarrier v n ctx)).cbCalls
        = (if n ≤ k then [Option.none] else [])
    ∧ (wrappedCallbackInvoke^[k] (initBarrier v n ctx)).context
        = (if n ≤ k then contextDidUpdate ctx v else ctx) := by
  intro k
  induction k with
  | zero =>
      refine ⟨?_, ?_⟩ <;> rw [if_neg (by omega)] <;> rfl
  | succ k ih =>
      obtain ⟨ihCb, ihCtx⟩ := ih
      have hnum : (wrappedCallbackInvoke^[k] (initBarrier v n ctx)).numRootsThatNeedUpdate
          = (n : Int) - k := by
        rw [runBarrier_num]
        rfl
      have hval : (wrappedCallbackInvoke^[k] (initBarrier v n ctx)).newValue = v := by
        rw [runBarrier_newValue]
        rfl
      rw [Function.iterate_succ_apply']
      by_cases hfire : n = k + 1
      · rw [wrappedCallbackInvoke_fire _ (by rw [hnum]; omega)]
        refine ⟨?_, ?_⟩
        · dsimp only
          rw [ihCb, if_neg (by omega), if_pos (by omega)]
          rfl
        · dsimp only
          rw [ihCtx, if_neg (by omega), if_pos (by omega), hval]
      · rw [wrappedCallbackInvoke_nofire _ (by rw [hnum]; omega)]
        refine ⟨?_, ?_⟩
        · dsimp only
          rw [ihCb]
          by_cases hle : n ≤ k
          · rw [if_pos hle, if_pos (by omega)]
          · rw [if_neg hle, if_neg (by omega)]
        · dsimp only
          rw [ihCtx]
          by_cases hle : n ≤ k
          · rw [if_pos hle, if_pos (by omega)]
          · rw [if_neg hle, if_neg (by omega)]

lemma setContext_globalValue {T R : Type} (first : List R)
    (ctx : ReactContext T) (v : T) (u : Bool) :
    (setContext first ctx v u).context._globalValue = v := by
  unfold setContext
  cases u <;> cases first <;> simp [contextDidUpdate]

lemma setContext_dispatches {T R : Type} (first : List R)
    (ctx : ReactContext T) (v : T) (u : Bool) :
    (setContext first ctx v u).dispatches
      = (first.map fun root => (root, ctx._globalValue, v)) := by
  unfold setContext
  cases u <;> cases first <;> simp [contextDidUpdate]

lemma setContext_wrapped_refCount {T R : Type} (first : List R)
    (h : first ≠ []) (ctx : ReactContext T) (v : T) :
    (setContext first ctx v true).wrappedCallback
      = some (Wrapped.refCount v (first.length : Int)) := by
  cases first with
  | nil => exact absurd rfl h
  | cons a l =>
      show (setContext (a :: l) ctx v true).wrappedCallback = _
      unfold setContext
      rw [if_pos rfl]
      dsimp only
      rw [countLoop_eq_length]

lemma count_true_cons_true (rest : List Bool) :
    (true :: rest).count true = rest.count true + 1 := by
  simp

lemma count_true_cons_false (rest : List Bool) :
    (false :: rest).count true = rest.count true := by
  simp

lemma doneA_num {T : Type} (s : TwoPublishState T) :
    (doneA s).numRootsA = s.numRootsA - 1 := by
  unfold doneA
  dsimp only
  split <;> rfl

lemma doneA_fire {T : Type} (s : TwoPublishState T) (h : s.numRootsA = 1) :
    doneA s =
      { s with
        numRootsA := 0
        context := contextDidUpdate s.context s.newValueA
        cbCallsA := s.cbCallsA ++ [Option.none] } := by
  unfold doneA
  rw [h]
  norm_num

lemma doneA_nofire {T : Type} (s : TwoPublishState T) (h : s.numRootsA ≠ 1) :
    doneA s = { s with numRootsA := s.numRootsA - 1 } := by
  unfold doneA
  rw [if_neg (by omega)]

lemma doneB_preservesA {T : Type} (s : TwoPublishState T) :
    (doneB s).numRootsA = s.numRootsA
    ∧ (doneB s).cbCallsA = s.cbCallsA
    ∧ (doneB s).newValueA = s.newValueA := by
  unfold doneB
  dsimp only
  split <;> exact ⟨rfl, rfl, rfl⟩

lemma runTwo_numA {T : Type} : ∀ (σ : List Bool) (s : TwoPublishState T),
    (runTwo σ s).numRootsA = s.numRootsA - (σ.count true : Int) := by
  intro σ
  induction σ with
  | nil =>
      intro s
      simp [runTwo]
  | cons b rest ih =>
      intro s
      cases b
      · show (runTwo rest (doneB s)).numRootsA = _
        rw [ih, (doneB_preservesA s).1, count_true_cons_false]
      · show (runTwo rest (doneA s)).numRootsA = _
        rw [ih, doneA_num, count_true_cons_true]
        push_cast
        ring

lemma runTwo_cbA {T : Type} : ∀ (σ : List Bool) (s : TwoPublishState T),
    ((1 ≤ s.numRootsA ∧ s.cbCallsA = [])
      ∨ (s.numRootsA ≤ 0 ∧ s.cbCallsA = [Option.none])) →
    (runTwo σ s).cbCallsA
      = (if s.numRootsA ≤ (σ.count true : Int) then [Option.none] else []) := by
  intro σ
  induction σ with
  | nil =>
      intro s hs
      show s.cbCallsA = _
      rcases hs with ⟨h1, h2⟩ | ⟨h1, h2⟩
      · rw [if_neg (by simp only [List.count_nil, Nat.cast_zero]; omega)]
        exact h2
      · rw [if_pos (by simp only [List.count_nil, Nat.cast_zero]; omega)]
        exact h2
  | cons b rest ih =>
      intro s hs
      cases b
      · show (runTwo rest (doneB s)).cbCallsA = _
        have hp := doneB_preservesA s
        rw [ih (doneB s) (by rw [hp.1, hp.2.1]; exact hs), hp.1, count_true_cons_false]
      · show (runTwo rest (doneA s)).cbCallsA = _
        rw [count_true_cons_true]
        rcases hs with ⟨h1, h2⟩ | ⟨h1, h2⟩
        · by_cases hone : s.numRootsA = 1
          · rw [doneA_fire s hone]
            rw [ih _ (Or.inr ⟨by dsimp only; omega, by dsimp only; rw [h2]; rfl⟩)]
            dsimp only
            rw [if_pos (by omega), if_pos (by push_cast; omega)]
          · rw [doneA_nofire s hone]
            rw [ih _ (Or.inl ⟨by dsimp only; omega, by dsimp only; exact h2⟩)]
            dsimp only
            by_cases hle : s.numRootsA - 1 ≤ (rest.count true : Int)
            · rw [if_pos hle, if_pos (by push_cast; omega)]
            · rw [if_neg hle, if_neg (by push_cast; omega)]
        · rw [doneA_nofire s (by omega)]
          rw [ih _ (Or.inr ⟨by dsimp only; omega, by dsimp only; exact h2⟩)]
          dsimp only
          rw [if_pos (by omega), if_pos (by push_cast; omega)]

/-- Concrete joint state of two overlapping publishes (values `5` and `9`)
over two registered roots, before any done call. -/
def twoPublishSample : TwoPublishState Int :=
  { context := ctxZero
    newValueA := 5
    numRootsA := 2
    cbCallsA := []
    newValueB := 9
    numRootsB := 2
    cbCallsB := [] }

/-- Claim C3: for every publish on a context with zero registered roots —
with or without a user callback — `setContext` commits immediately and
synchronously (both `_currentValue` and `_currentValue2` are set to
`newValue`), invokes the user callback synchronously exactly once if one
was supplied (and zero times otherwise), creates no wrapped callback (no
barrier), and dispatches no root. -/
theorem zeroRoots_fast_path {T : Type} (ctx : ReactContext T) (v : T)
    (u : Bool) :
    (setContext ([] : List Unit) ctx v u).context._currentValue = v
    ∧ (setContext ([] : List Unit) ctx v u).context._currentValue2 = v
    ∧ (setContext ([] : List Unit) ctx v u).syncUserCbCalls.length
        = (if u then 1 else 0)
    ∧ (setContext ([] : List Unit) ctx v u).wrappedCallback = Option.none
    ∧ (setContext ([] : List Unit) ctx v u).dispatches = [] := by
  cases u <;> exact ⟨rfl, rfl, rfl, rfl, rfl⟩

/-- Claim C5: every `setContext` call writes `newValue` into `_globalValue`
immediately and unconditionally (in all four paths, so in particular before
any root has completed), and every dispatched root receives as `oldValue`
the `_globalValue` recorded before that write, together with `newValue`. -/
theorem globalValue_visibility {T R : Type} (first : List R)
    (ctx : ReactContext T) (v : T) (u : Bool) :
    (setContext first ctx v u).context._globalValue = v
    ∧ (setContext first ctx v u).dispatches
        = (first.map fun root => (root, ctx._globalValue, v)) := by
  unfold setContext
  cases u <;> cases first <;> simp [contextDidUpdate]

/-- Claim C7: after any completed propagation the two current slots agree:
the commit step `contextDidUpdate` always writes the same value to both
slots, and once a reference-counted barrier over `n ≥ 1` roots has received
at least `n` done calls, both `_currentValue` and `_currentValue2` hold the
published value. -/
theorem commit_atomicity {T : Type} (ctx : ReactContext T) (v : T)
    (n k : Nat) (hn : 1 ≤ n) (hk : n ≤ k) :
    (contextDidUpdate ctx v)._currentValue
        = (contextDidUpdate ctx v)._currentValue2
    ∧ (wrappedCallbackInvoke^[k] (initBarrier v n ctx)).context._currentValue = v
    ∧ (wrappedCallbackInvoke^[k] (initBarrier v n ctx)).context._currentValue2 = v := by
  have h := (runBarrier_spec v ctx n hn k).2
  rw [if_pos hk] at h
  exact ⟨rfl, by rw [h]; rfl, by rw [h]; rfl⟩

/-- Witness for `commit_atomicity` at `n = 3`, `k = 5`, value `7`. -/
theorem commit_atomicity_witness :
    (1 ≤ 3 ∧ 3 ≤ 5)
    ∧ ((contextDidUpdate ctxZero 7)._currentValue
          = (contextDidUpdate ctxZero 7)._currentValue2
       ∧ (wrappedCallbackInvoke^[5] (initBarrier 7 3 ctxZero)).context._currentValue = 7
       ∧ (wrappedCallbackInvoke^[5] (initBarrier 7 3 ctxZero)).context._currentValue2 = 7) :=
  ⟨⟨by decide, by decide⟩, commit_atomicity ctxZero 7 3 5 (by decide) (by decide)⟩

/-- Claim C10: the commit step is idempotent — applying `contextDidUpdate`
with the same context and value `k ≥ 1` times leaves exactly the state of
applying it once; so in the no-user-callback path, where the bare commit is
the done callback handed to every root, repeated invocations by multiple
roots do not change the final committed state. -/
theorem contextDidUpdate_idempotent {T : Type} (ctx : ReactContext T)
    (v : T) (k : Nat) (hk : 1 ≤ k) :
    (fun c => contextDidUpdate c v)^[k] ctx = contextDidUpdate ctx v :=
  iterate_commit ctx v k hk

/-- Witness for `contextDidUpdate_idempotent` at `k = 3`, value `7`. -/
theorem contextDidUpdate_idempotent_witness :
    1 ≤ 3
    ∧ (fun c => contextDidUpdate c 7)^[3] ctxZero = contextDidUpdate ctxZero 7 :=
  ⟨by decide, contextDidUpdate_idempotent ctxZero 7 3 (by decide)⟩

/-- Claim C1: with `n ≥ 1` registered roots and a user callback,
`setContext` hands every root a reference-counting wrapped callback whose
counter is the number of registered roots; after `k` invocations of the
done callback the user callback has fired (exactly once) iff `k ≥ n`, and
it fires during invocation number `k + 1` iff `k + 1 = n` — i.e. the
completion callback fires precisely when the done callback has been invoked
`n` times, whatever the order or timing of the invocations. -/
theorem barrier_correctness {T R : Type} (first : List R) (h : first ≠ [])
    (ctx : ReactContext T) (v : T) (k : Nat) :
    (setContext first ctx v true).wrappedCallback
        = some (Wrapped.refCount v (first.length : Int))
    ∧ (wrappedCallbackInvoke^[k]
        (initBarrier v first.length (setContext first ctx v true).context)).cbCalls.length
        = (if first.length ≤ k then 1 else 0)
    ∧ ((wrappedCallbackInvoke^[k + 1]
          (initBarrier v first.length (setContext first ctx v true).context)).cbCalls.length
        = (wrappedCallbackInvoke^[k]
          (initBarrier v first.length (setContext first ctx v true).context)).cbCalls.length + 1
       ↔ k + 1 = first.length) := by
  have hn : 1 ≤ first.length := by
    cases first with
    | nil => exact absurd rfl h
    | cons a l => simp
  have e1 : ∀ j : Nat,
      (wrappedCallbackInvoke^[j]
        (initBarrier v first.length (setContext first ctx v true).context)).cbCalls.length
        = (if first.length ≤ j then 1 else 0) := by
    intro j
    rw [(runBarrier_spec v ((setContext first ctx v true).context) first.length hn j).1]
    split_ifs <;> rfl
  refine ⟨?_, e1 k, ?_⟩
  · cases first with
    | nil => exact absurd rfl h
    | cons a l =>
        show (setContext (a :: l) ctx v true).wrappedCallback = _
        unfold setContext
        rw [if_pos rfl]
        dsimp only
        rw [countLoop_eq_length]
  · rw [e1 (k + 1), e1 k]
    constructor
    · intro hh
      split_ifs at hh <;> omega
    · intro hh
      rw [if_pos (by omega), if_neg (by omega)]

/-- Witness for `barrier_correctness` with two roots, published value `7`,
observed after `k = 1` done calls. -/
theorem barrier_correctness_witness :
    ([(), ()] : List Unit) ≠ []
    ∧ ((setContext [(), ()] ctxZero 7 true).wrappedCallback
          = some (Wrapped.refCount 7 (([(), ()] : List Unit).length : Int))
       ∧ (wrappedCallbackInvoke^[1]
            (initBarrier 7 ([(), ()] : List Unit).length
              (setContext [(), ()] ctxZero 7 true).context)).cbCalls.length
          = (if ([(), ()] : List Unit).length ≤ 1 then 1 else 0)
       ∧ ((wrappedCallbackInvoke^[1 + 1]
              (initBarrier 7 ([(), ()] : List Unit).length
                (setContext [(), ()] ctxZero 7 true).context)).cbCalls.length
            = (wrappedCallbackInvoke^[1]
              (initBarrier 7 ([(), ()] : List Unit).length
                (setContext [(), ()] ctxZero 7 true).context)).cbCalls.length + 1
          ↔ 1 + 1 = ([(), ()] : List Unit).length)) :=
  ⟨by decide, barrier_correctness [(), ()] (by decide) ctxZero 7 1⟩

/-- Claim C6: the completion callback fires at most once per publish call:
however many times the reference-counting done callback is invoked — `k`
may exceed `n` — the `=== 0` check passes at most once, because further
decrements drive the counter negative. -/
theorem no_double_fire {T : Type} (v : T) (ctx : ReactContext T)
    (n k : Nat) (hn : 1 ≤ n) :
    (wrappedCallbackInvoke^[k] (initBarrier v n ctx)).cbCalls.length ≤ 1 := by
  rw [(runBarrier_spec v ctx n hn k).1]
  split_ifs <;> simp

/-- Witness for `no_double_fire` at `n = 2` roots with `k = 7` done calls
(over-invocation). -/
theorem no_double_fire_witness :
    1 ≤ 2
    ∧ (wrappedCallbackInvoke^[7] (initBarrier 9 2 ctxZero)).cbCalls.length ≤ 1 :=
  ⟨by decide, no_double_fire 9 ctxZero 2 7 (by decide)⟩

/-- Claim C2 fails on the code at a concrete input: with two registered
roots and no user callback, the done callback handed to every root is the
bare commit step `contextDidUpdate.bind(null, context, newValue)` — there
is no reference counting in this path — so a single done invocation (while
the second root has not called back) already mutates `_currentValue` and
`_currentValue2` from `0` to the new value `5`, contradicting the claim
that the commit happens only after all `n` roots have invoked their done
callback. -/
theorem commit_waits_for_all_roots_counterexample :
    (setContext [(), ()] ctxZero 5 false).wrappedCallback
        = some (Wrapped.commit 5)
    ∧ (setContext [(), ()] ctxZero 5 false).context._currentValue = 0
    ∧ (contextDidUpdate (setContext [(), ()] ctxZero 5 false).context 5)._currentValue = 5
    ∧ (contextDidUpdate (setContext [(), ()] ctxZero 5 false).context 5)._currentValue2 = 5 :=
  ⟨rfl, rfl, rfl, rfl⟩

/-- Claim C2 amended: the current slots are mutated only by the commit step
`contextDidUpdate` — the synchronous part of a publish with `n ≥ 1` roots
leaves them untouched — but when no user callback is supplied the done
callback handed to every root is the commit step itself with the captured
`newValue`: each root's done invocation commits, idempotently, so the
commit happens at the first done invocation, not only after all `n`. -/
theorem commit_on_each_done_no_user_callback {T R : Type} (first : List R)
    (h : first ≠ []) (ctx : ReactContext T) (v : T) (k : Nat) (hk : 1 ≤ k) :
    (setContext first ctx v false).wrappedCallback = some (Wrapped.commit v)
    ∧ (setContext first ctx v false).context._currentValue = ctx._currentValue
    ∧ (setContext first ctx v false).context._currentValue2 = ctx._currentValue2
    ∧ (fun c => contextDidUpdate c v)^[k] ((setContext first ctx v false).context)
        = contextDidUpdate ((setContext first ctx v false).context) v := by
  cases first with
  | nil => exact absurd rfl h
  | cons a l =>
      exact ⟨rfl, rfl, rfl, iterate_commit _ v k hk⟩

/-- Witness for `commit_on_each_done_no_user_callback` with one root and
`k = 2` done invocations. -/
theorem commit_on_each_done_no_user_callback_witness :
    (([()] : List Unit) ≠ [] ∧ 1 ≤ 2)
    ∧ ((setContext [()] ctxZero 5 false).wrappedCallback = some (Wrapped.commit 5)
       ∧ (setContext [()] ctxZero 5 false).context._currentValue = ctxZero._currentValue
       ∧ (setContext [()] ctxZero 5 false).context._currentValue2 = ctxZero._currentValue2
       ∧ (fun c => contextDidUpdate c 5)^[2] ((setContext [()] ctxZero 5 false).context)
          = contextDidUpdate ((setContext [()] ctxZero 5 false).context) 5) :=
  ⟨⟨by decide, by decide⟩,
    commit_on_each_done_no_user_callback [()] (by decide) ctxZero 5 2 (by decide)⟩

/-- Claim C4 fails on the code at a concrete input: in the zero-root fast
path of a publish of `5`, the user callback is invoked as `userCallback()`
— with no argument — so the recorded invocation argument is `Option.none`
(JavaScript `undefined`), not the committed value `5`. -/
theorem callback_receives_value_counterexample :
    (setContext ([] : List Unit) ctxZero 5 true).syncUserCbCalls = [Option.none]
    ∧ (setContext ([] : List Unit) ctxZero 5 true).syncUserCbCalls ≠ [some 5] := by
  refine ⟨rfl, by decide⟩

/-- Claim C4 amended: whenever a publish invokes the user callback — in the
zero-root fast path or on barrier completion — the callback is invoked with
no argument (JavaScript `undefined`), not with the committed value; the
committed new value is instead available in the context's current slots,
which are committed before (or in the same done call as) the callback. -/
theorem callback_invoked_without_argument {T : Type} (ctx : ReactContext T)
    (v : T) (n k : Nat) (hn : 1 ≤ n) (hk : n ≤ k) :
    (setContext ([] : List Unit) ctx v true).syncUserCbCalls = [Option.none]
    ∧ (setContext ([] : List Unit) ctx v true).context._currentValue = v
    ∧ (wrappedCallbackInvoke^[k] (initBarrier v n ctx)).cbCalls = [Option.none]
    ∧ (wrappedCallbackInvoke^[k] (initBarrier v n ctx)).context._currentValue = v := by
  have h1 := (runBarrier_spec v ctx n hn k).1
  have h2 := (runBarrier_spec v ctx n hn k).2
  rw [if_pos hk] at h1 h2
  exact ⟨rfl, rfl, h1, by rw [h2]; rfl⟩

/-- Witness for `callback_invoked_without_argument` at `n = 1`, `k = 1`,
value `5`. -/
theorem callback_invoked_without_argument_witness :
    (1 ≤ 1 ∧ 1 ≤ 1)
    ∧ ((setContext ([] : List Unit) ctxZero 5 true).syncUserCbCalls = [Option.none]
       ∧ (setContext ([] : List Unit) ctxZero 5 true).context._currentValue = 5
       ∧ (wrappedCallbackInvoke^[1] (initBarrier 5 1 ctxZero)).cbCalls = [Option.none]
       ∧ (wrappedCallbackInvoke^[1] (initBarrier 5 1 ctxZero)).context._currentValue = 5) :=
  ⟨⟨by decide, by decide⟩,
    callback_invoked_without_argument ctxZero 5 1 1 (by decide) (by decide)⟩

/-- Claim C8: two overlapping publishes on the same context are
independent: the later `setContext` call simply overwrites `_globalValue`;
each call's wrapped callback is its own closure with its own captured value
and its own counter sized to the registered roots; a done call belonging to
publish B changes neither publish A's remaining count, nor its record of
completion-callback firings, nor its captured value; under any interleaving
of done calls, A's counter and the firing of A's completion callback depend
only on the number of A done calls; and when A's counter reaches zero it
commits its own captured `newValueA`. -/
theorem overlapping_publishes_independent {T R : Type} (first : List R)
    (h : first ≠ []) (ctx : ReactContext T) (v1 v2 : T) (u1 u2 : Bool)
    (σ : List Bool) (s : TwoPublishState T)
    (hs : 1 ≤ s.numRootsA ∧ s.cbCallsA = []) :
    (setContext first ((setContext first ctx v1 u1).context) v2 u2).context._globalValue = v2
    ∧ (setContext first ctx v1 true).wrappedCallback
        = some (Wrapped.refCount v1 (first.length : Int))
    ∧ (setContext first ((setContext first ctx v1 true).context) v2 true).wrappedCallback
        = some (Wrapped.refCount v2 (first.length : Int))
    ∧ (doneB s).numRootsA = s.numRootsA
    ∧ (doneB s).cbCallsA = s.cbCallsA
    ∧ (doneB s).newValueA = s.newValueA
    ∧ (runTwo σ s).numRootsA = s.numRootsA - (σ.count true : Int)
    ∧ ((runTwo σ s).cbCallsA
        = (if s.numRootsA ≤ (σ.count true : Int) then [Option.none] else []))
    ∧ (s.numRootsA = 1 →
        (doneA s).context._currentValue = s.newValueA
        ∧ (doneA s).context._currentValue2 = s.newValueA) := by
  have hp := doneB_preservesA s
  refine ⟨setContext_globalValue first _ v2 u2,
    setContext_wrapped_refCount first h ctx v1,
    setContext_wrapped_refCount first h _ v2,
    hp.1, hp.2.1, hp.2.2,
    runTwo_numA σ s,
    runTwo_cbA σ s (Or.inl hs),
    ?_⟩
  intro hone
  rw [doneA_fire s hone]
  exact ⟨rfl, rfl⟩

/-- Witness for `overlapping_publishes_independent`: two roots, publishes
of `5` (A, in flight) and `9` (B), interleaving B, A, B, A. -/
theorem overlapping_publishes_independent_witness :
    (([(), ()] : List Unit) ≠ []
     ∧ 1 ≤ twoPublishSample.numRootsA
     ∧ twoPublishSample.cbCallsA = [])
    ∧ ((setContext [(), ()] ((setContext [(), ()] ctxZero 5 true).context) 9 true).context._globalValue = 9
       ∧ (setContext [(), ()] ctxZero 5 true).wrappedCallback
          = some (Wrapped.refCount 5 ((([(), ()] : List Unit)).length : Int))
       ∧ (setContext [(), ()] ((setContext [(), ()] ctxZero 5 true).context) 9 true).wrappedCallback
          = some (Wrapped.refCount 9 ((([(), ()] : List Unit)).length : Int))
       ∧ (doneB twoPublishSample).numRootsA = twoPublishSample.numRootsA
       ∧ (doneB twoPublishSample).cbCallsA = twoPublishSample.cbCallsA
       ∧ (doneB twoPublishSample).newValueA = twoPublishSample.newValueA
       ∧ (runTwo [false, true, false, true] twoPublishSample).numRootsA
          = twoPublishSample.numRootsA - (([false, true, false, true] : List Bool).count true : Int)
       ∧ ((runTwo [false, true, false, true] twoPublishSample).cbCallsA
          = (if twoPublishSample.numRootsA ≤ (([false, true, false, true] : List Bool).count true : Int)
             then [Option.none] else []))
       ∧ (twoPublishSample.numRootsA = 1 →
          (doneA twoPublishSample).context._currentValue = twoPublishSample.newValueA
          ∧ (doneA twoPublishSample).context._currentValue2 = twoPublishSample.newValueA)) :=
  ⟨⟨by decide, by decide, by decide⟩,
    overlapping_publishes_independent [(), ()] (by decide) ctxZero 5 9 true true
      [false, true, false, true] twoPublishSample ⟨by decide, by decide⟩⟩

/-- Claim C9 fails on the code at a concrete input: supplying a
change-detector that is present but neither absent nor a function does
produce one development-mode warning and a valid context is returned, but
the stored `_calculateChangedBits` is the invalid value itself — line 97
stores the argument unchanged; only an `undefined` argument is replaced by
`null`, so there is no fallback to the absent value. -/
theorem changed_bits_fallback_counterexample :
    (createContext (0 : Int) ChangedBits.other true).warnings = 1
    ∧ (createContext (0 : Int) ChangedBits.other true).context._calculateChangedBits
        = ChangedBits.other
    ∧ (ChangedBits.other : ChangedBits Int) ≠ ChangedBits.null :=
  ⟨rfl, rfl, nofun⟩

/-- Claim C9 amended: a present, non-callable, non-null change-detector
triggers exactly one non-fatal development-mode warning (none outside dev
mode), execution continues and a valid context is returned with all three
value slots holding the default value — but the invalid value is stored in
`_calculateChangedBits` unchanged; only an `undefined` argument is
normalized to the absent value `null`, with no warning. -/
theorem createContext_invalid_detector {T : Type} (d : T) :
    (createContext d ChangedBits.other true).warnings = 1
    ∧ (createContext d ChangedBits.other true).context._calculateChangedBits
        = ChangedBits.other
    ∧ (createContext d ChangedBits.other true).context._currentValue = d
    ∧ (createContext d ChangedBits.other true).context._currentValue2 = d
    ∧ (createContext d ChangedBits.other true).context._globalValue = d
    ∧ (createContext d ChangedBits.undefined true).context._calculateChangedBits
        = ChangedBits.null
    ∧ (createContext d ChangedBits.undefined true).warnings = 0
    ∧ (createContext d ChangedBits.other false).warnings = 0 :=
  ⟨rfl, rfl, rfl, rfl, rfl, rfl, rfl, rfl⟩

end ReactContextModel
